import Mathlib

/-!
Shallow embedding of the order-placement core of the Binance-Futures-Bot
repository (src/bot/validators.py, src/bot/client.py, src/bot/orders.py).

Conventions of the embedding:
* Python numbers used for quantity/price/stopPrice are embedded as `Rat`
  (the code only compares them with 0 and forwards them; no float rounding
  is relied on by any claim).
* Python dicts are embedded as association lists in insertion order;
  assignment `d[k] = v` is `pySet` (replaces in place or appends), which is
  exactly the observable behaviour of dict assignment.
* Parsed JSON bodies are embedded as `JVal`; `JVal.jnull` also stands for
  Python `None`, matching the fact that `dict.get` cannot distinguish an
  absent key from a key bound to `None`.
* Python exceptions are embedded as the `Except` monad with the error
  taxonomy `BotError` below; each constructor corresponds to one exception
  class reachable in the embedded code paths.
* Python string operations `.strip()`, `.upper()` and `int(...)` are
  embedded over the character list of the string (ASCII behaviour, which
  covers every value the code produces).
-/

/-- Python `str.upper()` (ASCII case mapping over the characters). -/
def pyUpper (s : String) : String := ⟨s.data.map Char.toUpper⟩

/-- The ASCII whitespace characters stripped by Python `str.strip()`. -/
def pyIsSpace (c : Char) : Bool :=
  c = ' ' || c = '\t' || c = '\n' || c = '\r' || c = '\x0b' || c = '\x0c'

/-- Python `str.strip()`: drop leading and trailing whitespace. -/
def pyStrip (s : String) : String :=
  ⟨((s.data.dropWhile pyIsSpace).reverse.dropWhile pyIsSpace).reverse⟩

/-- Value of a decimal digit character, `none` for a non-digit. -/
def digitVal (c : Char) : Option Nat :=
  if 48 ≤ c.toNat ∧ c.toNat ≤ 57 then some (c.toNat - 48) else none

/-- Parse a nonempty all-digit character list as a natural number. -/
def digitsToNat : List Char → Option Nat
  | [] => none
  | cs => cs.foldlM (fun acc c => (digitVal c).map (fun d => acc * 10 + d)) 0

/-- Python `int(s)` on a string: surrounding whitespace is allowed, then an
optional sign followed by decimal digits; anything else raises `ValueError`
(`none` here). Underscore digit separators are not modelled (no claim
involves them). -/
def pyIntOfString (s : String) : Option Int :=
  match (pyStrip s).data with
  | '-' :: cs => (digitsToNat cs).map (fun n => -(n : Int))
  | '+' :: cs => (digitsToNat cs).map (fun n => (n : Int))
  | cs => (digitsToNat cs).map (fun n => (n : Int))

/-- A scalar value stored in the wire-parameter dict of
`BinanceFuturesClient` (Python mixes strings, ints and floats there). -/
inductive PValue where
  | str (s : String)
  | int (n : Int)
  | rat (q : Rat)
deriving DecidableEq

/-- Python `str()` of a parameter value, as used by the f-string
`f"{k}={params[k]}"` in `_signed_request`. The rendering of a `rat`
(Python float) is abstracted by `toString`; no claim depends on the
concrete digits of a float rendering. -/
def pvalStr : PValue → String
  | .str s => s
  | .int n => toString n
  | .rat q => toString q

/-- Python dict assignment `d[k] = v` on an insertion-ordered association
list: replace the binding in place if the key exists, else append. -/
def pySet : List (String × PValue) → String → PValue → List (String × PValue)
  | [], k, v => [(k, v)]
  | (k0, v0) :: rest, k, v =>
      if k0 = k then (k, v) :: rest else (k0, v0) :: pySet rest k v

/-- Codepoint sequence of a string, the order Python `sorted` uses. -/
def strKey (s : String) : List Nat := s.data.map Char.toNat

/-- Lexicographic order on codepoint sequences (the order of Python
`sorted` on strings). -/
def lexLe : List Nat → List Nat → Bool
  | [], _ => true
  | _ :: _, [] => false
  | a :: as, b :: bs => if a < b then true else if b < a then false else lexLe as bs

/-- Key order used to sort the parameter dict in `_signed_request`. -/
def keyLe (a b : String × PValue) : Prop := lexLe (strKey a.1) (strKey b.1) = true

instance : DecidableRel keyLe := fun a b =>
  inferInstanceAs (Decidable (lexLe (strKey a.1) (strKey b.1) = true))

/-- `"&".join(...)` of Python. -/
def joinAmp : List String → String
  | [] => ""
  | [x] => x
  | x :: y :: xs => x ++ "&" ++ joinAmp (y :: xs)

/-- Lines 86-88 of src/bot/client.py: the canonical query string is built by
sorting the parameter keys (Python `sorted(params)`) and joining the
`key=value` renderings with `&`. -/
def canonicalQuery (params : List (String × PValue)) : String :=
  joinAmp ((List.insertionSort keyLe params).map (fun p => p.1 ++ "=" ++ pvalStr p.2))

/-- Lines 80-84 of src/bot/client.py: `_signed_request` assigns
`params["timestamp"]` and `params["recvWindow"]` directly into the
caller-supplied dict (no copy is taken), so this is the state of the
caller's mapping after the call. -/
def dispatchParams (params : List (String × PValue)) (nowMs : Int)
    (recv_window : Int) : List (String × PValue) :=
  pySet (pySet params "timestamp" (.int nowMs)) "recvWindow" (.int recv_window)

/-- A parsed JSON value. `jnull` doubles as Python `None`. JSON arrays,
booleans and floats are not distinguished (no claim involves them). -/
inductive JVal where
  | jnull
  | jint (n : Int)
  | jstr (s : String)
  | jobj (fields : List (String × JVal))

/-- Python `d.get(k, default)` on a parsed JSON object. -/
def pyDictGetD (fs : List (String × JVal)) (k : String) (d : JVal) : JVal :=
  (List.lookup k fs).getD d

/-- Python `k in d` on a parsed JSON object. -/
def pyHasKey (fs : List (String × JVal)) (k : String) : Bool :=
  (List.lookup k fs).isSome

/-- Whether a parsed JSON value is a Python dict (`isinstance(data, dict)`). -/
def isDict : JVal → Bool
  | .jobj _ => true
  | _ => false

/-- Python `v != 0`: an integer compares by value; `None`, strings and
objects are never equal to `0`. -/
def pyNeqZero : JVal → Bool
  | .jint n => n != 0
  | _ => true

/-- The condition of line 128 of src/bot/client.py:
`isinstance(data, dict) and "code" in data and data.get("code", 0) != 0`. -/
def errorFlag : JVal → Bool
  | .jobj fs => pyHasKey fs "code" && pyNeqZero (pyDictGetD fs "code" (.jint 0))
  | _ => false

/-- The payload of `BinanceApiError` (src/bot/client.py lines 26-33):
HTTP status, exchange error code and message. `JVal.jnull` stands for the
Python `None` that the constructor receives in those positions. -/
structure ApiErrorM where
  status_code : Nat
  code : JVal
  msg : JVal

/-- The error taxonomy reachable in the embedded code paths. `validation`
is `bot.validators.ValidationError`; `api` is `BinanceApiError`; `network`
is `BinanceNetworkError`; `valueError`, `typeError` and `attributeError`
are the Python builtins raised by unguarded code in `place_order`. -/
inductive BotError where
  | validation (msg : String)
  | api (e : ApiErrorM)
  | network (msg : String)
  | valueError (msg : String)
  | typeError (msg : String)
  | attributeError (msg : String)

/-- Lines 117-132 of src/bot/client.py: classify an HTTP response into a
`BinanceApiError` or a successful parsed body. `parsed = none` means
`resp.json()` raised (body not parseable); `text` is `resp.text`. -/
def classify (status_code : Nat) (text : String) (parsed : Option JVal) :
    Except ApiErrorM JVal :=
  match parsed with
  | none => .error ⟨status_code, .jnull, .jstr ("Non-JSON response: " ++ text)⟩
  | some data =>
    if 400 ≤ status_code then
      match data with
      | .jobj fs =>
          .error ⟨status_code, pyDictGetD fs "code" .jnull, pyDictGetD fs "msg" .jnull⟩
      | _ => .error ⟨status_code, .jnull, .jstr text⟩
    else
      if errorFlag data then
        match data with
        | .jobj fs =>
            .error ⟨status_code, pyDictGetD fs "code" .jnull, pyDictGetD fs "msg" (.jstr "")⟩
        | _ => .ok data
      else .ok data

/-- Python `str()` of a JSON value, used on `avgPrice`. The rendering of a
non-scalar is abstracted (the code never reaches it in any claim). -/
def pyStr : JVal → String
  | .jnull => "None"
  | .jint n => toString n
  | .jstr s => s
  | .jobj _ => "dict"

/-- Python `int(x)` on a JSON value: ints pass through, strings are parsed
(`ValueError` on failure), `None` and objects raise `TypeError`. -/
def pyIntOfJVal : JVal → Except BotError Int
  | .jint n => .ok n
  | .jstr s =>
      match pyIntOfString s with
      | some n => .ok n
      | none => .error (.valueError ("invalid literal for int() with base 10: " ++ s))
  | .jnull => .error (.typeError
      "int() argument must be a string, a bytes-like object or a real number, not NoneType")
  | .jobj _ => .error (.typeError
      "int() argument must be a string, a bytes-like object or a real number, not dict")

/-- The `OrderResult` dataclass of src/bot/client.py lines 40-46. `status`
and `executed_qty` keep whatever JSON value the body held (the Python type
annotations are not enforced at runtime). -/
structure OrderResultM where
  order_id : Int
  status : JVal
  executed_qty : JVal
  avg_price : Option String
  raw : JVal

/-- Lines 182-193 of src/bot/client.py: extract an `OrderResult` from a
successful response dict. `data.get("avgPrice") or data.get("avgPrice", None)`
evaluates both operands to the same value, so it equals `data.get("avgPrice")`;
the result is `None` exactly when the field is absent or `None`, and is
stringified otherwise. -/
def extractOrderResult (fs : List (String × JVal)) : Except BotError OrderResultM :=
  match pyIntOfJVal (pyDictGetD fs "orderId" .jnull) with
  | .error e => .error e
  | .ok oid =>
      let st := pyDictGetD fs "status" (.jstr "UNKNOWN")
      let exq := pyDictGetD fs "executedQty" (.jstr "0")
      let avp := pyDictGetD fs "avgPrice" .jnull
      .ok { order_id := oid, status := st, executed_qty := exq,
            avg_price := match avp with
              | .jnull => none
              | v => some (pyStr v),
            raw := .jobj fs }

/-- Python `time_in_force or "GTC"` (line 170/178 of src/bot/client.py):
`None` and the empty string are falsy. -/
def pyOrGTC : Option String → String
  | none => "GTC"
  | some s => if s = "" then "GTC" else s

/-- Lines 155-179 of src/bot/client.py: the wire-parameter dict built by
`place_order` before dispatch, or the `ValueError` raised for a missing
price/stop price. -/
def place_order_params (symbol side order_type : String) (quantity : Rat)
    (price stop_price : Option Rat) (time_in_force : Option String) :
    Except BotError (List (String × PValue)) :=
  let order_type_upper := pyUpper order_type
  let binance_type := if order_type_upper = "STOP_LIMIT" then "STOP" else order_type_upper
  let params : List (String × PValue) :=
    [("symbol", .str (pyUpper symbol)), ("side", .str (pyUpper side)),
     ("type", .str binance_type), ("quantity", .rat quantity)]
  if order_type_upper = "LIMIT" then
    match price with
    | none => .error (.valueError "price is required for LIMIT orders")
    | some p =>
        .ok (pySet (pySet params "price" (.rat p))
              "timeInForce" (.str (pyOrGTC time_in_force)))
  else if order_type_upper = "STOP_LIMIT" then
    match price with
    | none => .error (.valueError "price is required for STOP_LIMIT orders")
    | some p =>
        match stop_price with
        | none => .error (.valueError "stop_price is required for STOP_LIMIT orders")
        | some sp =>
            .ok (pySet (pySet (pySet params "price" (.rat p))
                  "stopPrice" (.rat sp))
                  "timeInForce" (.str (pyOrGTC time_in_force)))
  else .ok params

/-- An HTTP response as seen by `_signed_request`: status, raw text and the
parsed JSON body (`none` when `resp.json()` raises). -/
structure HttpResponse where
  status_code : Nat
  text : String
  json : Option JVal

/-- `BinanceFuturesClient.place_order` (src/bot/client.py lines 134-193),
with the network call abstracted as a `transport` function from the signed
parameter dict to the HTTP response: build the wire parameters (raising
`ValueError` for missing prices before anything is dispatched), send, have
`_signed_request` classify the response, then extract the `OrderResult`.
A non-dict successful body makes `data.get` raise `AttributeError`. -/
def place_order (symbol side order_type : String) (quantity : Rat)
    (price stop_price : Option Rat) (time_in_force : Option String)
    (nowMs recv_window : Int)
    (transport : List (String × PValue) → HttpResponse) :
    Except BotError OrderResultM :=
  match place_order_params symbol side order_type quantity price stop_price time_in_force with
  | .error e => .error e
  | .ok params =>
    let resp := transport (dispatchParams params nowMs recv_window)
    match classify resp.status_code resp.text resp.json with
    | .error e => .error (.api e)
    | .ok data =>
      match data with
      | .jobj fs => extractOrderResult fs
      | _ => .error (.attributeError "object has no attribute get")

/-- `normalize_symbol` of src/bot/validators.py. The error string is the
`ValidationError` message. -/
def normalize_symbol (symbol : String) : Except String String :=
  let s := pyUpper (pyStrip symbol)
  if s = "" then .error "Symbol must not be empty." else .ok s

/-- `normalize_side` of src/bot/validators.py. -/
def normalize_side (side : String) : Except String String :=
  let s := pyUpper (pyStrip side)
  if s = "BUY" ∨ s = "SELL" then .ok s
  else .error "Side must be either BUY or SELL."

/-- `normalize_order_type` of src/bot/validators.py. -/
def normalize_order_type (order_type : String) : Except String String :=
  let t := pyUpper (pyStrip order_type)
  if t = "MARKET" ∨ t = "LIMIT" ∨ t = "STOP_LIMIT" then .ok t
  else .error "Order type must be one of: MARKET, LIMIT, STOP_LIMIT."

/-- `validate_quantity` of src/bot/validators.py. -/
def validate_quantity (quantity : Rat) : Except String Rat :=
  if quantity ≤ 0 then .error "Quantity must be greater than 0." else .ok quantity

/-- `_validate_positive` of src/bot/validators.py. -/
def validate_positive (name : String) (value : Rat) : Except String Rat :=
  if value ≤ 0 then .error (name ++ " must be greater than 0.") else .ok value

/-- `validate_price_and_stop_price` of src/bot/validators.py lines 47-69. -/
def validate_price_and_stop_price (order_type : String)
    (price stop_price : Option Rat) : Except String (Option Rat × Option Rat) :=
  if order_type = "LIMIT" then
    match price with
    | none => .error "Price is required for LIMIT orders."
    | some p =>
        match validate_positive "Price" p with
        | .error e => .error e
        | .ok vp => .ok (some vp, none)
  else if order_type = "STOP_LIMIT" then
    match price with
    | none => .error "Price is required for STOP_LIMIT orders."
    | some p =>
        match stop_price with
        | none => .error "Stop price is required for STOP_LIMIT orders."
        | some sp =>
            match validate_positive "Price" p with
            | .error e => .error e
            | .ok vp =>
                match validate_positive "Stop price" sp with
                | .error e => .error e
                | .ok vsp => .ok (some vp, some vsp)
  else .ok (none, none)

/-- `validate_order_request` of src/bot/validators.py lines 72-91. -/
def validate_order_request (symbol side order_type : String) (quantity : Rat)
    (price stop_price : Option Rat) :
    Except String (String × String × String × Rat × Option Rat × Option Rat) :=
  match normalize_symbol symbol with
  | .error e => .error e
  | .ok ns =>
    match normalize_side side with
    | .error e => .error e
    | .ok nsd =>
      match normalize_order_type order_type with
      | .error e => .error e
      | .ok nt =>
        match validate_quantity quantity with
        | .error e => .error e
        | .ok nq =>
          match validate_price_and_stop_price nt price stop_price with
          | .error e => .error e
          | .ok (np, nsp) => .ok (ns, nsd, nt, nq, np, nsp)

/-- The wire parameters produced by the validated pipeline
(`orders.place_order_with_validation`, which validates and then calls
`client.place_order` with `time_in_force="GTC"`), up to the point of
dispatch. -/
def validated_order_params (symbol side order_type : String) (quantity : Rat)
    (price stop_price : Option Rat) : Except BotError (List (String × PValue)) :=
  match validate_order_request symbol side order_type quantity price stop_price with
  | .error m => .error (.validation m)
  | .ok (ns, nsd, nt, nq, np, nsp) => place_order_params ns nsd nt nq np nsp (some "GTC")

/-! Order-theoretic facts about the key order used by the canonical query
string, needed to show that sorting makes the result insertion-order
independent. -/

theorem lexLe_total : ∀ xs ys : List Nat, lexLe xs ys = true ∨ lexLe ys xs = true
  | [], _ => Or.inl rfl
  | _ :: _, [] => Or.inr rfl
  | x :: xs, y :: ys => by
      by_cases h1 : x < y
      · left; simp [lexLe, h1]
      · by_cases h2 : y < x
        · right; simp [lexLe, h2]
        · cases lexLe_total xs ys with
          | inl h => left; simp [lexLe, h1, h2, h]
          | inr h => right; simp [lexLe, h1, h2, h]

theorem lexLe_trans : ∀ xs ys zs : List Nat, lexLe xs ys = true →
    lexLe ys zs = true → lexLe xs zs = true
  | [], _, _, _, _ => rfl
  | _ :: _, [], _, h1, _ => by simp [lexLe] at h1
  | _ :: _, _ :: _, [], _, h2 => by simp [lexLe] at h2
  | x :: xs, y :: ys, z :: zs, h1, h2 => by
      simp only [lexLe] at h1 h2 ⊢
      by_cases hxy : x < y
      · by_cases hyz : y < z
        · have hxz : x < z := Nat.lt_trans hxy hyz
          simp [hxz]
        · by_cases hzy : z < y
          · simp [hyz, hzy] at h2
          · have hxz : x < z := by omega
            simp [hxz]
      · by_cases hyx : y < x
        · simp [hxy, hyx] at h1
        · have hxey : x = y := by omega
          simp [hxy, hyx] at h1
          by_cases hyz : y < z
          · have hxz : x < z := by omega
            simp [hxz]
          · by_cases hzy : z < y
            · simp [hyz, hzy] at h2
            · have hyez : y = z := by omega
              simp [hyz, hzy] at h2
              have hnxz : ¬ x < z := by omega
              have hnzx : ¬ z < x := by omega
              simp [hnxz, hnzx]
              exact lexLe_trans xs ys zs h1 h2

theorem lexLe_antisymm : ∀ xs ys : List Nat, lexLe xs ys = true →
    lexLe ys xs = true → xs = ys
  | [], [], _, _ => rfl
  | [], _ :: _, _, h2 => by simp [lexLe] at h2
  | _ :: _, [], h1, _ => by simp [lexLe] at h1
  | x :: xs, y :: ys, h1, h2 => by
      by_cases hxy : x < y
      · have hnyx : ¬ y < x := by omega
        simp [lexLe, hnyx, hxy] at h2
      · by_cases hyx : y < x
        · simp [lexLe, hxy, hyx] at h1
        · have hxey : x = y := by omega
          simp [lexLe, hxy, hyx] at h1 h2
          rw [hxey, lexLe_antisymm xs ys h1 h2]

theorem char_toNat_injective : Function.Injective Char.toNat := by
  intro a b h
  have ha := Char.ofNat_toNat a
  have hb := Char.ofNat_toNat b
  rw [← ha, ← hb, h]

theorem strKey_injective : Function.Injective strKey := by
  intro s t h
  have hd : s.data = t.data := List.map_injective_iff.mpr char_toNat_injective h
  cases s
  cases t
  exact congrArg String.mk hd

instance : IsTotal (String × PValue) keyLe :=
  ⟨fun a b => lexLe_total (strKey a.1) (strKey b.1)⟩

instance : IsTrans (String × PValue) keyLe :=
  ⟨fun _ _ _ h1 h2 => lexLe_trans _ _ _ h1 h2⟩

/-- Strict version of `keyLe` on entries with distinct keys. -/
def keyLt (a b : String × PValue) : Prop := keyLe a b ∧ a.1 ≠ b.1

instance : IsAntisymm (String × PValue) keyLt :=
  ⟨fun a b h1 h2 =>
    absurd (strKey_injective (lexLe_antisymm _ _ h1.1 h2.1)) h1.2⟩

theorem sorted_keyLt_of_sorted_nodup (l : List (String × PValue))
    (hs : List.Sorted keyLe l) (hn : (l.map Prod.fst).Nodup) :
    List.Sorted keyLt l := by
  have hne : l.Pairwise (fun a b => a.1 ≠ b.1) := List.pairwise_map.mp hn
  exact (hs.and hne).imp (fun h => ⟨h.1, h.2⟩)

theorem lookup_pySet_self : ∀ (l : List (String × PValue)) (k : String) (v : PValue),
    List.lookup k (pySet l k v) = some v
  | [], k, v => by simp [pySet, List.lookup]
  | (k0, v0) :: rest, k, v => by
      by_cases h : k0 = k
      · subst h
        simp [pySet, List.lookup]
      · have hb : (k == k0) = false := beq_eq_false_iff_ne.mpr (Ne.symm h)
        simp [pySet, h, List.lookup, hb, lookup_pySet_self rest k v]

theorem lookup_pySet_other : ∀ (l : List (String × PValue)) (k k2 : String) (v : PValue),
    k2 ≠ k → List.lookup k2 (pySet l k v) = List.lookup k2 l
  | [], k, k2, v, h => by
      have hb : (k2 == k) = false := beq_eq_false_iff_ne.mpr h
      simp [pySet, List.lookup, hb]
  | (k0, v0) :: rest, k, k2, v, h => by
      by_cases h0 : k0 = k
      · subst h0
        have hb : (k2 == k0) = false := beq_eq_false_iff_ne.mpr h
        simp [pySet, List.lookup, hb]
      · by_cases h2 : k2 = k0
        · subst h2
          simp [pySet, h0, List.lookup]
        · have hb : (k2 == k0) = false := beq_eq_false_iff_ne.mpr h2
          simp [pySet, h0, List.lookup, hb, lookup_pySet_other rest k k2 v h]

/-- C1: the canonical query string built by the dispatcher
(`_signed_request`, src/bot/client.py lines 86-88) is order-independent:
it sorts the keys of the parameter mapping lexicographically and joins the
`key=value` pairs with `&`, so any two insertion orders of the same
key-value pairs (a Python dict has no duplicate keys, hence the `Nodup`
hypothesis) produce the identical canonical string. -/
theorem canonicalQuery_order_independent (l1 l2 : List (String × PValue))
    (hperm : l1.Perm l2) (hnodup : (l1.map Prod.fst).Nodup) :
    canonicalQuery l1 = canonicalQuery l2 := by
  have hp : (List.insertionSort keyLe l1).Perm (List.insertionSort keyLe l2) :=
    (List.perm_insertionSort keyLe l1).trans
      (hperm.trans (List.perm_insertionSort keyLe l2).symm)
  have hn1 : ((List.insertionSort keyLe l1).map Prod.fst).Nodup :=
    (((List.perm_insertionSort keyLe l1).map Prod.fst).nodup_iff).mpr hnodup
  have hn2 : ((List.insertionSort keyLe l2).map Prod.fst).Nodup :=
    (((List.perm_insertionSort keyLe l2).map Prod.fst).nodup_iff).mpr
      (((hperm.map Prod.fst).nodup_iff).mp hnodup)
  have hs1 : List.Sorted keyLt (List.insertionSort keyLe l1) :=
    sorted_keyLt_of_sorted_nodup _ (List.sorted_insertionSort keyLe l1) hn1
  have hs2 : List.Sorted keyLt (List.insertionSort keyLe l2) :=
    sorted_keyLt_of_sorted_nodup _ (List.sorted_insertionSort keyLe l2) hn2
  have heq : List.insertionSort keyLe l1 = List.insertionSort keyLe l2 :=
    List.eq_of_perm_of_sorted hp hs1 hs2
  unfold canonicalQuery
  rw [heq]

/-- Witness for C1 at the example of the spec: the mappings
`[b: 2, a: 1]` and `[a: 1, b: 2]` yield the identical canonical string,
and that string is `a=1&b=2`. -/
theorem canonicalQuery_order_independent_witness :
    canonicalQuery [("b", PValue.int 2), ("a", PValue.int 1)] =
      canonicalQuery [("a", PValue.int 1), ("b", PValue.int 2)] ∧
    canonicalQuery [("b", PValue.int 2), ("a", PValue.int 1)] = "a=1&b=2" :=
  ⟨canonicalQuery_order_independent _ _ (by decide) (by decide), by decide⟩

/-- C9: `_signed_request` (src/bot/client.py lines 80-84) assigns
`timestamp` and `recvWindow` directly into the caller-supplied parameter
mapping without copying it, so after the call the caller's mapping
(`dispatchParams params nowMs recv_window` is its post-call state) contains
the added `timestamp` and `recvWindow` keys with the assigned values. -/
theorem dispatchParams_adds_timestamp_recvWindow
    (params : List (String × PValue)) (nowMs recv_window : Int) :
    List.lookup "timestamp" (dispatchParams params nowMs recv_window) =
      some (PValue.int nowMs) ∧
    List.lookup "recvWindow" (dispatchParams params nowMs recv_window) =
      some (PValue.int recv_window) := by
  constructor
  · unfold dispatchParams
    rw [lookup_pySet_other _ _ _ _ (by decide)]
    exact lookup_pySet_self _ _ _
  · exact lookup_pySet_self _ _ _

/-- C2: classification of a parseable response body by `_signed_request`
(src/bot/client.py lines 117-132). If the HTTP status is at least 400 the
call raises `BinanceApiError` with that status and with code/msg extracted
from the body when it is a dict (else code `None`, msg the raw text); if
the status is below 400 but the body is a dict whose `code` entry compares
unequal to 0, it raises `BinanceApiError` with that status/code/msg
(`msg` defaulting to the empty string); otherwise the parsed body is
returned as success. -/
theorem classify_spec (status_code : Nat) (text : String) (data : JVal) :
    (400 ≤ status_code →
      (∀ fs, data = .jobj fs →
        classify status_code text (some data) =
          .error ⟨status_code, pyDictGetD fs "code" .jnull, pyDictGetD fs "msg" .jnull⟩) ∧
      (isDict data = false →
        classify status_code text (some data) =
          .error ⟨status_code, .jnull, .jstr text⟩)) ∧
    (status_code < 400 →
      (∀ fs, data = .jobj fs → errorFlag data = true →
        classify status_code text (some data) =
          .error ⟨status_code, pyDictGetD fs "code" .jnull, pyDictGetD fs "msg" (.jstr "")⟩) ∧
      (errorFlag data = false →
        classify status_code text (some data) = .ok data)) := by
  refine ⟨fun h400 => ⟨fun fs hfs => ?_, fun hnd => ?_⟩,
          fun hlt => ⟨fun fs hfs hflag => ?_, fun hflag => ?_⟩⟩
  · subst hfs
    simp [classify, h400]
  · cases data with
    | jobj fs => simp [isDict] at hnd
    | jnull => simp [classify, h400]
    | jint n => simp [classify, h400]
    | jstr s => simp [classify, h400]
  · subst hfs
    have hn : ¬ 400 ≤ status_code := by omega
    simp [classify, hn, hflag]
  · have hn : ¬ 400 ≤ status_code := by omega
    cases data with
    | jobj fs => simp [classify, hn, hflag]
    | jnull => simp [classify, hn, errorFlag]
    | jint n => simp [classify, hn, errorFlag]
    | jstr s => simp [classify, hn, errorFlag]

/-- Witness for C2 at the example of the spec: an HTTP 200 response whose
body is the dict with `code = -2010` raises `BinanceApiError` despite the
200 status. -/
theorem classify_spec_witness :
    (200 : Nat) < 400 ∧
    classify 200 ""
        (some (JVal.jobj [("code", JVal.jint (-2010)),
                          ("msg", JVal.jstr "Account has insufficient balance.")])) =
      .error ⟨200, JVal.jint (-2010), JVal.jstr "Account has insufficient balance."⟩ :=
  ⟨by decide,
   ((classify_spec 200 "" _).2 (by decide)).1 _ rfl (by decide)⟩

/-- C7 counterexample: for the unparseable body with raw text `"hello"`,
the dispatcher raises `BinanceApiError` whose message is
`"Non-JSON response: hello"` (line 121 of src/bot/client.py prefixes the
raw text), not the raw text `"hello"` itself as the claim states. -/
theorem classify_nonjson_counterexample :
    classify 200 "hello" none =
      .error ⟨200, .jnull, .jstr "Non-JSON response: hello"⟩ ∧
    JVal.jstr "Non-JSON response: hello" ≠ JVal.jstr "hello" :=
  ⟨rfl, fun h => absurd (JVal.jstr.inj h) (by decide)⟩

/-- C7 amended: for every HTTP response whose body is not parseable as
structured data, the dispatcher raises `BinanceApiError` carrying the HTTP
status code, a null error code, and the raw response text prefixed with
`"Non-JSON response: "` as the message. -/
theorem classify_nonjson (status_code : Nat) (text : String) :
    classify status_code text none =
      .error ⟨status_code, .jnull, .jstr ("Non-JSON response: " ++ text)⟩ := rfl

/-- C5 counterexample: for orderType LIMIT with price 2 and a present,
non-positive stopPrice -3, validation succeeds (returning the price and
discarding the stopPrice) instead of failing, so the claim that for LIMIT
each present price/stopPrice must be positive or validation fails is false
as stated: `validate_price_and_stop_price` never examines a stopPrice
passed with a LIMIT order. -/
theorem validate_limit_ignores_stop_counterexample :
    validate_price_and_stop_price "LIMIT" (some 2) (some (-3)) =
      .ok (some 2, none) := rfl

theorem vpsp_limit_some (p : Rat) (sp : Option Rat) :
    validate_price_and_stop_price "LIMIT" (some p) sp =
      match validate_positive "Price" p with
      | .error e => .error e
      | .ok vp => .ok (some vp, none) := rfl

theorem vpsp_stop_some (p sp : Rat) :
    validate_price_and_stop_price "STOP_LIMIT" (some p) (some sp) =
      match validate_positive "Price" p with
      | .error e => .error e
      | .ok vp =>
          match validate_positive "Stop price" sp with
          | .error e => .error e
          | .ok vsp => .ok (some vp, some vsp) := rfl

/-- C5 amended: in `validate_price_and_stop_price` (src/bot/validators.py
lines 47-69), LIMIT with an absent price fails with `ValidationError`, as
does STOP_LIMIT with an absent price or an absent stopPrice (even when the
price is present); the required fields must be positive — a non-positive
LIMIT price, STOP_LIMIT price, or STOP_LIMIT stopPrice each fail — and a
LIMIT success returns the positive price with stopPrice forced to absent;
but a stopPrice passed with a LIMIT order is ignored without being
checked, rather than being required to be positive. -/
theorem validate_price_and_stop_price_spec :
    (∀ sp, validate_price_and_stop_price "LIMIT" none sp =
      .error "Price is required for LIMIT orders.") ∧
    (∀ sp, validate_price_and_stop_price "STOP_LIMIT" none sp =
      .error "Price is required for STOP_LIMIT orders.") ∧
    (∀ p : Rat, validate_price_and_stop_price "STOP_LIMIT" (some p) none =
      .error "Stop price is required for STOP_LIMIT orders.") ∧
    (∀ (p : Rat) (sp : Option Rat), p ≤ 0 →
      validate_price_and_stop_price "LIMIT" (some p) sp =
        .error "Price must be greater than 0.") ∧
    (∀ (p : Rat) (sp : Option Rat) r,
      validate_price_and_stop_price "LIMIT" (some p) sp = .ok r →
        0 < p ∧ r = (some p, none)) ∧
    (∀ p sp : Rat, p ≤ 0 →
      validate_price_and_stop_price "STOP_LIMIT" (some p) (some sp) =
        .error "Price must be greater than 0.") ∧
    (∀ p sp : Rat, 0 < p → sp ≤ 0 →
      validate_price_and_stop_price "STOP_LIMIT" (some p) (some sp) =
        .error "Stop price must be greater than 0.") ∧
    (∀ (p sp : Rat) r,
      validate_price_and_stop_price "STOP_LIMIT" (some p) (some sp) = .ok r →
        0 < p ∧ 0 < sp ∧ r = (some p, some sp)) := by
  refine ⟨fun sp => rfl, fun sp => rfl, fun p => rfl, ?_, ?_, ?_, ?_, ?_⟩
  · intro p sp hp
    rw [vpsp_limit_some]
    simp [validate_positive, hp]
  · intro p sp r h
    rw [vpsp_limit_some] at h
    by_cases hp : p ≤ 0
    · simp [validate_positive, hp] at h
    · simp [validate_positive, hp] at h
      exact ⟨not_le.mp hp, h.symm⟩
  · intro p sp hp
    rw [vpsp_stop_some]
    simp [validate_positive, hp]
  · intro p sp hp hsp
    rw [vpsp_stop_some]
    have hnp : ¬ p ≤ 0 := not_le.mpr hp
    simp [validate_positive, hnp, hsp]
  · intro p sp r h
    rw [vpsp_stop_some] at h
    by_cases hp : p ≤ 0
    · simp [validate_positive, hp] at h
    · by_cases hsp : sp ≤ 0
      · simp [validate_positive, hp, hsp] at h
      · simp [validate_positive, hp, hsp] at h
        exact ⟨not_le.mp hp, not_le.mp hsp, h.symm⟩

/-- Witness for C5 amended, at concrete inputs: a missing LIMIT price
fails, a missing STOP_LIMIT stopPrice fails despite a present price, a
non-positive LIMIT price fails, a non-positive STOP_LIMIT stopPrice fails,
and a LIMIT validation with price 2 and (ignored) stopPrice -3 succeeds
with the stopPrice cleared to absent. -/
theorem validate_price_and_stop_price_spec_witness :
    validate_price_and_stop_price "LIMIT" none none =
      .error "Price is required for LIMIT orders." ∧
    validate_price_and_stop_price "STOP_LIMIT" (some 5) none =
      .error "Stop price is required for STOP_LIMIT orders." ∧
    validate_price_and_stop_price "LIMIT" (some (-1)) none =
      .error "Price must be greater than 0." ∧
    validate_price_and_stop_price "STOP_LIMIT" (some 3) (some (-3)) =
      .error "Stop price must be greater than 0." ∧
    (0 < (2 : Rat) ∧ ((some 2, none) : Option Rat × Option Rat) = (some 2, none)) :=
  ⟨validate_price_and_stop_price_spec.1 none,
   validate_price_and_stop_price_spec.2.2.1 5,
   validate_price_and_stop_price_spec.2.2.2.1 (-1) none (by decide),
   validate_price_and_stop_price_spec.2.2.2.2.2.2.1 3 (-3) (by decide) (by decide),
   validate_price_and_stop_price_spec.2.2.2.2.1 2 (some (-3)) (some 2, none) rfl⟩

/-- C4 counterexample: the code defines no UnexpectedResponseError kind at
all — for a successful body with no `orderId` field, line 182 of
src/bot/client.py evaluates `int(data.get("orderId"))`, i.e. `int(None)`,
which raises the Python builtin `TypeError`, not an
UnexpectedResponseError. -/
theorem extract_missing_orderId_counterexample :
    extractOrderResult [] = .error (.typeError
      "int() argument must be a string, a bytes-like object or a real number, not NoneType") :=
  rfl

/-- C4 amended: for a successful response dict, an absent (or null)
`orderId` makes the result extraction raise the Python builtin `TypeError`,
and a non-numeric string `orderId` makes it raise the Python builtin
`ValueError` — error kinds outside the spec taxonomy (in particular
distinct from `BinanceApiError`), not a dedicated UnexpectedResponseError,
which the code never defines. -/
theorem extract_bad_orderId_spec (fs : List (String × JVal)) :
    (List.lookup "orderId" fs = none →
      extractOrderResult fs = .error (.typeError
        "int() argument must be a string, a bytes-like object or a real number, not NoneType")) ∧
    (∀ s, List.lookup "orderId" fs = some (.jstr s) → pyIntOfString s = none →
      extractOrderResult fs = .error (.valueError
        ("invalid literal for int() with base 10: " ++ s))) ∧
    (∀ m e, BotError.typeError m ≠ BotError.api e) ∧
    (∀ m e, BotError.valueError m ≠ BotError.api e) := by
  refine ⟨fun habs => ?_, fun s hs hbad => ?_,
          fun m e h => BotError.noConfusion h, fun m e h => BotError.noConfusion h⟩
  · unfold extractOrderResult
    simp [pyDictGetD, habs, pyIntOfJVal]
  · unfold extractOrderResult
    simp [pyDictGetD, hs, pyIntOfJVal, hbad]

/-- Witness for C4 amended: a body with no `orderId` raises `TypeError`,
and a body whose `orderId` is the non-numeric string `"abc"` raises
`ValueError`. -/
theorem extract_bad_orderId_spec_witness :
    extractOrderResult [("status", JVal.jstr "NEW")] = .error (.typeError
      "int() argument must be a string, a bytes-like object or a real number, not NoneType") ∧
    extractOrderResult [("orderId", JVal.jstr "abc")] = .error (.valueError
      "invalid literal for int() with base 10: abc") :=
  ⟨(extract_bad_orderId_spec [("status", JVal.jstr "NEW")]).1 rfl,
   (extract_bad_orderId_spec [("orderId", JVal.jstr "abc")]).2.1 "abc" rfl rfl⟩

/-- C8 counterexample: a successful body whose `avgPrice` field is the
empty string yields an `OrderResult` whose avg_price is the present empty
string (line 185 of src/bot/client.py falls through to
`data.get("avgPrice", None)`, which returns the present `""`), not
"not present" as the claim states for an empty field. -/
theorem extract_empty_avgPrice_counterexample :
    extractOrderResult [("orderId", JVal.jint 1), ("avgPrice", JVal.jstr "")] =
      .ok { order_id := 1, status := .jstr "UNKNOWN", executed_qty := .jstr "0",
            avg_price := some "",
            raw := .jobj [("orderId", JVal.jint 1), ("avgPrice", JVal.jstr "")] } ∧
    (some "" : Option String) ≠ none :=
  ⟨rfl, by decide⟩

/-- C8 amended: for every successful response dict with a valid `orderId`,
the extracted `OrderResult` has the body's `status` field (`"UNKNOWN"` if
absent), the body's `executedQty` field kept as is (`"0"` if absent),
`avg_price` not present exactly when the body's `avgPrice` field is absent
or null — a present empty string stays a present empty string — and
stringified when present, and `raw` equal to the entire original response
unmodified. -/
theorem extract_success_spec (fs : List (String × JVal)) (oid : Int)
    (h : pyIntOfJVal (pyDictGetD fs "orderId" .jnull) = .ok oid) :
    ∃ r, extractOrderResult fs = .ok r ∧
      r.order_id = oid ∧
      (List.lookup "status" fs = none → r.status = .jstr "UNKNOWN") ∧
      (∀ v, List.lookup "status" fs = some v → r.status = v) ∧
      (List.lookup "executedQty" fs = none → r.executed_qty = .jstr "0") ∧
      (∀ v, List.lookup "executedQty" fs = some v → r.executed_qty = v) ∧
      ((List.lookup "avgPrice" fs = none ∨ List.lookup "avgPrice" fs = some .jnull) →
        r.avg_price = none) ∧
      (∀ v, List.lookup "avgPrice" fs = some v → v ≠ .jnull →
        r.avg_price = some (pyStr v)) ∧
      r.raw = .jobj fs := by
  have hrw : extractOrderResult fs =
      .ok { order_id := oid,
            status := pyDictGetD fs "status" (.jstr "UNKNOWN"),
            executed_qty := pyDictGetD fs "executedQty" (.jstr "0"),
            avg_price := match pyDictGetD fs "avgPrice" .jnull with
              | .jnull => none
              | v => some (pyStr v),
            raw := .jobj fs } := by
    unfold extractOrderResult
    rw [h]
  refine ⟨_, hrw, rfl, ?_, ?_, ?_, ?_, ?_, ?_, rfl⟩
  · intro h0
    simp [pyDictGetD, h0]
  · intro v hv
    simp [pyDictGetD, hv]
  · intro h0
    simp [pyDictGetD, h0]
  · intro v hv
    simp [pyDictGetD, hv]
  · intro h0
    cases h0 with
    | inl ha => simp [pyDictGetD, ha]
    | inr hb => simp [pyDictGetD, hb]
  · intro v hv hne
    have hsc : pyDictGetD fs "avgPrice" JVal.jnull = v := by
      simp [pyDictGetD, hv]
    rw [hsc]
    cases v with
    | jnull => exact absurd rfl hne
    | jint n => rfl
    | jstr s => rfl
    | jobj gs => rfl

/-- Witness for C8 amended at the example of the spec: the body with
orderId 123, status FILLED, executedQty "0.01" and avgPrice "65000.1"
extracts to exactly those fields with the full body retained in raw. -/
theorem extract_success_spec_witness :
    ∃ r, extractOrderResult
        [("orderId", JVal.jint 123), ("status", JVal.jstr "FILLED"),
         ("executedQty", JVal.jstr "0.01"), ("avgPrice", JVal.jstr "65000.1")] = .ok r ∧
      r.order_id = 123 ∧ r.status = JVal.jstr "FILLED" ∧
      r.executed_qty = JVal.jstr "0.01" ∧ r.avg_price = some "65000.1" ∧
      r.raw = JVal.jobj
        [("orderId", JVal.jint 123), ("status", JVal.jstr "FILLED"),
         ("executedQty", JVal.jstr "0.01"), ("avgPrice", JVal.jstr "65000.1")] := by
  obtain ⟨r, h1, h2, _, h4, _, h6, _, h8, h9⟩ :=
    extract_success_spec
      [("orderId", JVal.jint 123), ("status", JVal.jstr "FILLED"),
       ("executedQty", JVal.jstr "0.01"), ("avgPrice", JVal.jstr "65000.1")] 123 rfl
  exact ⟨r, h1, h2, h4 _ rfl, h6 _ rfl,
         h8 _ rfl (fun hh => JVal.noConfusion hh), h9⟩

theorem normalize_order_type_eq (order_type t : String)
    (h : normalize_order_type order_type = .ok t) :
    t = pyUpper (pyStrip order_type) := by
  simp only [normalize_order_type] at h
  split at h
  · exact (Except.ok.inj h).symm
  · exact Except.noConfusion h

theorem validate_order_request_parts (symbol side order_type : String)
    (quantity : Rat) (price stop_price : Option Rat)
    (ns nsd nt : String) (nq : Rat) (np nsp : Option Rat)
    (h : validate_order_request symbol side order_type quantity price stop_price =
      .ok (ns, nsd, nt, nq, np, nsp)) :
    normalize_order_type order_type = .ok nt ∧
    validate_price_and_stop_price nt price stop_price = .ok (np, nsp) := by
  unfold validate_order_request at h
  cases h1 : normalize_symbol symbol with
  | error e => rw [h1] at h; exact Except.noConfusion h
  | ok a =>
    rw [h1] at h
    cases h2 : normalize_side side with
    | error e => rw [h2] at h; exact Except.noConfusion h
    | ok b =>
      rw [h2] at h
      cases h3 : normalize_order_type order_type with
      | error e => rw [h3] at h; exact Except.noConfusion h
      | ok c =>
        rw [h3] at h
        cases h4 : validate_quantity quantity with
        | error e => rw [h4] at h; exact Except.noConfusion h
        | ok d =>
          rw [h4] at h
          dsimp only at h
          cases h5 : validate_price_and_stop_price c price stop_price with
          | error e => rw [h5] at h; exact Except.noConfusion h
          | ok pq =>
            obtain ⟨e1, e2⟩ := pq
            rw [h5] at h
            have heq := Except.ok.inj h
            simp only [Prod.mk.injEq] at heq
            obtain ⟨-, -, hc, -, he, hf⟩ := heq
            subst hc
            subst he
            subst hf
            exact ⟨rfl, h5⟩

/-- C3: for every input whose orderType normalizes to MARKET and which
passes validation, the wire parameters built by the validated pipeline
(`validate_order_request` followed by `place_order`) contain none of the
keys `price`, `stopPrice` or `timeInForce`, regardless of the price and
stopPrice values passed to the validator: `validate_price_and_stop_price`
clears both to absent for MARKET and `place_order` adds none of the three
keys for MARKET. -/
theorem market_params_no_price_keys (symbol side order_type : String)
    (quantity : Rat) (price stop_price : Option Rat)
    (params : List (String × PValue))
    (hok : validated_order_params symbol side order_type quantity price stop_price =
      .ok params)
    (hmkt : pyUpper (pyStrip order_type) = "MARKET") :
    List.lookup "price" params = none ∧
    List.lookup "stopPrice" params = none ∧
    List.lookup "timeInForce" params = none := by
  unfold validated_order_params at hok
  cases hv : validate_order_request symbol side order_type quantity price stop_price with
  | error m =>
    rw [hv] at hok
    exact Except.noConfusion hok
  | ok tup =>
    obtain ⟨ns, nsd, nt, nq, np, nsp⟩ := tup
    rw [hv] at hok
    dsimp only at hok
    obtain ⟨hntv, hvp⟩ :=
      validate_order_request_parts symbol side order_type quantity price stop_price
        ns nsd nt nq np nsp hv
    have hnt : nt = "MARKET" := (normalize_order_type_eq order_type nt hntv).trans hmkt
    subst hnt
    have hnone : validate_price_and_stop_price "MARKET" price stop_price =
        .ok (none, none) := rfl
    rw [hnone] at hvp
    have hpair := Except.ok.inj hvp
    simp only [Prod.mk.injEq] at hpair
    obtain ⟨hnp, hnsp⟩ := hpair
    rw [← hnp, ← hnsp] at hok
    have hmp : place_order_params ns nsd "MARKET" nq none none (some "GTC") =
        .ok [("symbol", .str (pyUpper ns)), ("side", .str (pyUpper nsd)),
             ("type", .str "MARKET"), ("quantity", .rat nq)] := rfl
    rw [hmp] at hok
    have hl := Except.ok.inj hok
    rw [← hl]
    exact ⟨rfl, rfl, rfl⟩

/-- Witness for C3: a market order with junk price -3 and stopPrice 0
passed to the validator still builds wire parameters without `price`,
`stopPrice` or `timeInForce`. -/
theorem market_params_no_price_keys_witness :
    List.lookup "price" [(("symbol" : String), PValue.str "BTCUSDT"),
      ("side", PValue.str "BUY"), ("type", PValue.str "MARKET"),
      ("quantity", PValue.rat 1)] = none ∧
    List.lookup "stopPrice" [(("symbol" : String), PValue.str "BTCUSDT"),
      ("side", PValue.str "BUY"), ("type", PValue.str "MARKET"),
      ("quantity", PValue.rat 1)] = none ∧
    List.lookup "timeInForce" [(("symbol" : String), PValue.str "BTCUSDT"),
      ("side", PValue.str "BUY"), ("type", PValue.str "MARKET"),
      ("quantity", PValue.rat 1)] = none :=
  market_params_no_price_keys "btcusdt" "buy" " market " 1 (some (-3)) (some 0)
    [("symbol", PValue.str "BTCUSDT"), ("side", PValue.str "BUY"),
     ("type", PValue.str "MARKET"), ("quantity", PValue.rat 1)]
    rfl (by decide)

theorem place_order_params_limit_none (symbol side order_type : String)
    (quantity : Rat) (stop_price : Option Rat) (tif : Option String)
    (hL : pyUpper order_type = "LIMIT") :
    place_order_params symbol side order_type quantity none stop_price tif =
      .error (.valueError "price is required for LIMIT orders") := by
  unfold place_order_params
  rw [hL]
  rfl

theorem place_order_params_limit_some (symbol side order_type : String)
    (quantity : Rat) (p : Rat) (stop_price : Option Rat) (tif : Option String)
    (hL : pyUpper order_type = "LIMIT") :
    place_order_params symbol side order_type quantity (some p) stop_price tif =
      .ok [("symbol", .str (pyUpper symbol)), ("side", .str (pyUpper side)),
           ("type", .str "LIMIT"), ("quantity", .rat quantity),
           ("price", .rat p), ("timeInForce", .str (pyOrGTC tif))] := by
  unfold place_order_params
  rw [hL]
  rfl

theorem place_order_params_stop_none_price (symbol side order_type : String)
    (quantity : Rat) (stop_price : Option Rat) (tif : Option String)
    (hS : pyUpper order_type = "STOP_LIMIT") :
    place_order_params symbol side order_type quantity none stop_price tif =
      .error (.valueError "price is required for STOP_LIMIT orders") := by
  unfold place_order_params
  rw [hS]
  rfl

theorem place_order_params_stop_none_stop (symbol side order_type : String)
    (quantity : Rat) (p : Rat) (tif : Option String)
    (hS : pyUpper order_type = "STOP_LIMIT") :
    place_order_params symbol side order_type quantity (some p) none tif =
      .error (.valueError "stop_price is required for STOP_LIMIT orders") := by
  unfold place_order_params
  rw [hS]
  rfl

theorem place_order_params_stop_some (symbol side order_type : String)
    (quantity : Rat) (p sp : Rat) (tif : Option String)
    (hS : pyUpper order_type = "STOP_LIMIT") :
    place_order_params symbol side order_type quantity (some p) (some sp) tif =
      .ok [("symbol", .str (pyUpper symbol)), ("side", .str (pyUpper side)),
           ("type", .str "STOP"), ("quantity", .rat quantity),
           ("price", .rat p), ("stopPrice", .rat sp),
           ("timeInForce", .str (pyOrGTC tif))] := by
  unfold place_order_params
  rw [hS]
  rfl

theorem place_order_params_other (symbol side order_type : String)
    (quantity : Rat) (price stop_price : Option Rat) (tif : Option String)
    (hL : ¬ pyUpper order_type = "LIMIT") (hS : ¬ pyUpper order_type = "STOP_LIMIT") :
    place_order_params symbol side order_type quantity price stop_price tif =
      .ok [("symbol", .str (pyUpper symbol)), ("side", .str (pyUpper side)),
           ("type", .str (pyUpper order_type)), ("quantity", .rat quantity)] := by
  simp [place_order_params, hL, hS]

/-- C6: the request builder (`place_order`, src/bot/client.py lines
155-179, with its `time_in_force` argument left at the default `None`)
maps orderType to the wire `type` field as STOP_LIMIT to "STOP", MARKET to
"MARKET" and LIMIT to "LIMIT", and attaches `timeInForce = "GTC"` exactly
when a `price` is attached (for LIMIT and STOP_LIMIT), omitting it for
MARKET. -/
theorem place_order_params_type_and_tif (symbol side order_type : String)
    (quantity : Rat) (price stop_price : Option Rat)
    (params : List (String × PValue))
    (hok : place_order_params symbol side order_type quantity price stop_price none =
      .ok params) :
    (pyUpper order_type = "MARKET" →
      List.lookup "type" params = some (.str "MARKET") ∧
      List.lookup "timeInForce" params = none) ∧
    (pyUpper order_type = "LIMIT" →
      List.lookup "type" params = some (.str "LIMIT") ∧
      List.lookup "timeInForce" params = some (.str "GTC") ∧
      (∃ v, List.lookup "price" params = some v)) ∧
    (pyUpper order_type = "STOP_LIMIT" →
      List.lookup "type" params = some (.str "STOP") ∧
      List.lookup "timeInForce" params = some (.str "GTC") ∧
      (∃ v, List.lookup "price" params = some v)) ∧
    ((∃ v, List.lookup "price" params = some v) ↔
      List.lookup "timeInForce" params = some (.str "GTC")) := by
  by_cases hL : pyUpper order_type = "LIMIT"
  · cases price with
    | none =>
      rw [place_order_params_limit_none symbol side order_type quantity stop_price none hL]
        at hok
      exact Except.noConfusion hok
    | some p =>
      rw [place_order_params_limit_some symbol side order_type quantity p stop_price none hL]
        at hok
      have hl := Except.ok.inj hok
      rw [← hl]
      exact ⟨fun hM => absurd (hM.symm.trans hL) (by decide),
             fun _ => ⟨rfl, rfl, ⟨.rat p, rfl⟩⟩,
             fun hS => absurd (hS.symm.trans hL) (by decide),
             ⟨fun _ => rfl, fun _ => ⟨.rat p, rfl⟩⟩⟩
  · by_cases hS : pyUpper order_type = "STOP_LIMIT"
    · cases price with
      | none =>
        rw [place_order_params_stop_none_price symbol side order_type quantity
          stop_price none hS] at hok
        exact Except.noConfusion hok
      | some p =>
        cases stop_price with
        | none =>
          rw [place_order_params_stop_none_stop symbol side order_type quantity p none hS]
            at hok
          exact Except.noConfusion hok
        | some sp =>
          rw [place_order_params_stop_some symbol side order_type quantity p sp none hS]
            at hok
          have hl := Except.ok.inj hok
          rw [← hl]
          exact ⟨fun hM => absurd (hM.symm.trans hS) (by decide),
                 fun hM => absurd (hM.symm.trans hS) (by decide),
                 fun _ => ⟨rfl, rfl, ⟨.rat p, rfl⟩⟩,
                 ⟨fun _ => rfl, fun _ => ⟨.rat p, rfl⟩⟩⟩
    · rw [place_order_params_other symbol side order_type quantity price stop_price
        none hL hS] at hok
      have hl := Except.ok.inj hok
      rw [← hl]
      refine ⟨fun hM => ?_, fun hM => absurd hM hL, fun hM => absurd hM hS,
              ⟨fun hv => ?_, fun hv => Option.noConfusion hv⟩⟩
      · rw [hM]
        exact ⟨rfl, rfl⟩
      · obtain ⟨v, hv⟩ := hv
        exact Option.noConfusion hv

/-- Witness for C6 at concrete inputs: a LIMIT order with price 2 builds
parameters with wire type "LIMIT", `timeInForce = "GTC"` and a price
entry. -/
theorem place_order_params_type_and_tif_witness :
    List.lookup "type" [(("symbol" : String), PValue.str "BTCUSDT"),
        ("side", PValue.str "BUY"), ("type", PValue.str "LIMIT"),
        ("quantity", PValue.rat 1), ("price", PValue.rat 2),
        ("timeInForce", PValue.str "GTC")] = some (PValue.str "LIMIT") ∧
    List.lookup "timeInForce" [(("symbol" : String), PValue.str "BTCUSDT"),
        ("side", PValue.str "BUY"), ("type", PValue.str "LIMIT"),
        ("quantity", PValue.rat 1), ("price", PValue.rat 2),
        ("timeInForce", PValue.str "GTC")] = some (PValue.str "GTC") ∧
    (∃ v, List.lookup "price" [(("symbol" : String), PValue.str "BTCUSDT"),
        ("side", PValue.str "BUY"), ("type", PValue.str "LIMIT"),
        ("quantity", PValue.rat 1), ("price", PValue.rat 2),
        ("timeInForce", PValue.str "GTC")] = some v) :=
  (place_order_params_type_and_tif "BTCUSDT" "BUY" "LIMIT" 1 (some 2) none
    [("symbol", PValue.str "BTCUSDT"), ("side", PValue.str "BUY"),
     ("type", PValue.str "LIMIT"), ("quantity", PValue.rat 1),
     ("price", PValue.rat 2), ("timeInForce", PValue.str "GTC")]
    rfl).2.1 (by decide)

/-- C10: calling `place_order` directly (src/bot/client.py lines 155-179),
bypassing the validator, with a missing price for LIMIT or STOP_LIMIT or a
missing stop_price for STOP_LIMIT raises a plain Python `ValueError`
before any network dispatch — the result is the same for every transport,
so nothing is sent — and that error kind is distinct from
`ValidationError`. -/
theorem place_order_missing_price_valueerror (symbol side order_type : String)
    (quantity : Rat) (price stop_price : Option Rat) (tif : Option String)
    (nowMs recv_window : Int)
    (transport : List (String × PValue) → HttpResponse) :
    (pyUpper order_type = "LIMIT" → price = none →
      place_order symbol side order_type quantity price stop_price tif
          nowMs recv_window transport =
        .error (.valueError "price is required for LIMIT orders")) ∧
    (pyUpper order_type = "STOP_LIMIT" → price = none →
      place_order symbol side order_type quantity price stop_price tif
          nowMs recv_window transport =
        .error (.valueError "price is required for STOP_LIMIT orders")) ∧
    (∀ p, pyUpper order_type = "STOP_LIMIT" → price = some p → stop_price = none →
      place_order symbol side order_type quantity price stop_price tif
          nowMs recv_window transport =
        .error (.valueError "stop_price is required for STOP_LIMIT orders")) ∧
    (∀ m1 m2, BotError.valueError m1 ≠ BotError.validation m2) := by
  refine ⟨fun hL hp => ?_, fun hS hp => ?_, fun p hS hp hsp => ?_,
          fun m1 m2 h => BotError.noConfusion h⟩
  · subst hp
    unfold place_order
    rw [place_order_params_limit_none symbol side order_type quantity stop_price tif hL]
  · subst hp
    unfold place_order
    rw [place_order_params_stop_none_price symbol side order_type quantity
      stop_price tif hS]
  · subst hp
    subst hsp
    unfold place_order
    rw [place_order_params_stop_none_stop symbol side order_type quantity p tif hS]

/-- Witness for C10: a direct LIMIT `place_order` call without a price,
against a transport that would answer HTTP 200, fails with the plain
`ValueError` message before dispatch. -/
theorem place_order_missing_price_valueerror_witness :
    place_order "BTCUSDT" "BUY" "LIMIT" 1 none none none 0 5000
        (fun _ => ⟨200, "", some (JVal.jobj [])⟩) =
      .error (.valueError "price is required for LIMIT orders") :=
  (place_order_missing_price_valueerror "BTCUSDT" "BUY" "LIMIT" 1 none none none
    0 5000 (fun _ => ⟨200, "", some (JVal.jobj [])⟩)).1 (by decide) rfl
